import Mathlib

/-!
Verification of the user-management backend (hybrid REST + gRPC service).

Shallow embedding of the Go sources:
  * `internal/retry/retry.go` (src/unnamed/part_006): `RetryConfig`,
    `DefaultRetryConfig`, `calculateDelay`, `ExecuteWithRetry`;
  * `internal/database/database.go`: the `...WithRetry` data-access
    operations over a GORM/Postgres store, modelled as a pure store
    (list of users plus the next primary-key value);
  * `internal/service/service.go`: the protocol-agnostic `UserService`;
  * `internal/api/handlers.go` (src/unnamed/part_005): the HTTP adapter;
  * `internal/grpc/grpc_server.go`: the gRPC adapter;
  * `pkg/models/user.go` (src/unnamed/part_007): the `User` entity and
    the request DTOs with their binding tags.

Conventions: Go `error` values are modelled by their message strings
(`Option String` / `Except String`), since every classification in the
code is done by `strings.Contains` on the message.  Durations are
nanosecond counts (`Nat`), times are abstract `Nat` instants supplied by
the caller.  The store is deterministic between the attempts of one
retried operation, which matches a single-writer execution of the code.
-/

/-- Whether `pat` is a prefix of `cs` (character lists). -/
def charsHavePre : List Char → List Char → Bool
  | _, [] => true
  | [], _ :: _ => false
  | c :: cs, p :: ps => c == p && charsHavePre cs ps

/-- Whether `pat` occurs contiguously inside `cs`. -/
def charsContain : List Char → List Char → Bool
  | [], pat => pat.isEmpty
  | c :: cs, pat => charsHavePre (c :: cs) pat || charsContain cs pat

/-- Go `strings.Contains s sub`. -/
def strContains (s sub : String) : Bool :=
  charsContain s.toList sub.toList

/-- Message of `gorm.ErrRecordNotFound`. -/
def recordNotFoundMsg : String := "record not found"

/-- Message of a Postgres unique-constraint failure (the code only ever
tests it with `strings.Contains _ "duplicate key"`). -/
def duplicateKeyMsg : String := "duplicate key value violates unique constraint"

/-- A transient infrastructure failure used in examples. -/
def connRefusedMsg : String := "connection refused"

/-- Go struct `models.User` (`pkg/models/user.go`).  The password field stores the
bcrypt digest, never the plaintext. -/
structure User where
  id : Nat
  name : String
  email : String
  password : String
  createdAt : Nat
  updatedAt : Nat
deriving DecidableEq

/-- The persistence collaborator: the `users` table plus the Postgres
primary-key sequence (identifiers are never reused after deletion). -/
structure Db where
  users : List User
  nextId : Nat
deriving DecidableEq

def emptyDb : Db := { users := [], nextId := 1 }

/- ---------------------------------------------------------------
   internal/retry/retry.go
   --------------------------------------------------------------- -/

/-- Go struct `retry.RetryConfig`. Delays are in nanoseconds. -/
structure RetryConfig where
  maxAttempts : Nat
  baseDelay : Nat
  maxDelay : Nat
deriving DecidableEq

/-- Function `retry.DefaultRetryConfig()`: 3 attempts, 100ms base, 2s cap. -/
def DefaultRetryConfig : RetryConfig :=
  { maxAttempts := 3, baseDelay := 100000000, maxDelay := 2000000000 }

/-- Function `retry.calculateDelay`: `baseDelay * 2^(attempt-1)` capped at
`maxDelay`.  The Go code computes the product in `float64`; on the
in-range inputs that arise it is exact, so the integer form is used. -/
def calculateDelay (attempt baseDelay maxDelay : Nat) : Nat :=
  min (baseDelay * 2 ^ (attempt - 1)) maxDelay

/-- The single-quote character (written by code point to keep the file
free of quote literals). -/
def squote : Char := Char.ofNat 39

/-- Surround a string with single quotes, as the `fmt` verb does for the
operation name. -/
def quoteStr (s : String) : String :=
  String.singleton squote ++ s ++ String.singleton squote

/-- What `fmt` prints for `%w` applied to a nil error; unreachable when
`maxAttempts` is at least 1. -/
def nilErrMsg : String := "%!w(<nil>)"

/-- The message built by
`fmt.Errorf("operation %s failed after %d attempts: %w", ...)` (the
operation name is single-quoted in the format string). -/
def wrapMsg (operation : String) (n : Nat) (lastErr : Option String) : String :=
  "operation " ++ quoteStr operation ++ " failed after " ++ toString n
    ++ " attempts: " ++ (match lastErr with | some m => m | none => nilErrMsg)

/-- Observable behaviour of one `ExecuteWithRetry` run: the returned
error (`none` = nil), how often the operation function was invoked, and
the backoff delays slept between attempts, in order. -/
structure RetryTrace where
  result : Option String
  invocations : Nat
  delays : List Nat
deriving DecidableEq

/-- Exit state of the `for attempt` loop in `ExecuteWithRetry`. -/
inductive LoopOut where
  | success (invocations : Nat) (delays : List Nat)
  | exhausted (lastErr : Option String) (invocations : Nat) (delays : List Nat)
deriving DecidableEq

/-- The `for attempt := 1; attempt <= maxAttempts` loop body of
`retry.ExecuteWithRetry`.  `fn i` is the error returned by the `i`-th
invocation of the operation function (`none` = success); `r` is the
number of loop iterations still permitted, so the `r = 1` case is the
`attempt == config.MaxAttempts` break. -/
def retryLoop (fn : Nat → Option String) (cfg : RetryConfig) :
    Nat → Nat → LoopOut
  | _, 0 => .exhausted none 0 []
  | attempt, r + 1 =>
    match fn attempt with
    | none => .success 1 []
    | some err =>
      if r = 0 then
        .exhausted (some err) 1 []
      else
        let d := calculateDelay attempt cfg.baseDelay cfg.maxDelay
        match retryLoop fn cfg (attempt + 1) r with
        | .success n ds => .success (n + 1) (d :: ds)
        | .exhausted last n ds => .exhausted last (n + 1) (d :: ds)

/-- Function `retry.ExecuteWithRetry`: run `fn` up to `maxAttempts` times with
exponential backoff; any non-nil error is retried (the function contains
no error classification), and exhaustion wraps the last error together
with the operation name and `maxAttempts`. -/
def ExecuteWithRetry (operation : String) (fn : Nat → Option String)
    (cfg : RetryConfig) : RetryTrace :=
  match retryLoop fn cfg 1 cfg.maxAttempts with
  | .success n ds => { result := none, invocations := n, delays := ds }
  | .exhausted last n ds =>
    { result := some (wrapMsg operation cfg.maxAttempts last),
      invocations := n, delays := ds }

/- ---------------------------------------------------------------
   internal/database/database.go — GORM/Postgres primitives
   --------------------------------------------------------------- -/

/-- GORM call `db.Create(user)`: Postgres assigns the next sequence value as the
primary key, GORM stamps `CreatedAt`/`UpdatedAt`, and the unique index
on `email` rejects a duplicate. -/
def dbCreate (db : Db) (now : Nat) (u : User) : Except String (Db × User) :=
  if db.users.any (fun v => v.email == u.email) then
    .error duplicateKeyMsg
  else
    let saved : User :=
      { u with id := db.nextId, createdAt := now, updatedAt := now }
    .ok ({ users := db.users ++ [saved], nextId := db.nextId + 1 }, saved)

/-- GORM call `db.First(&user, id)`: `gorm.ErrRecordNotFound` when absent. -/
def dbFirstById (db : Db) (id : Nat) : Except String User :=
  match db.users.find? (fun v => v.id == id) with
  | some u => .ok u
  | none => .error recordNotFoundMsg

/-- GORM call `db.Where("email = ?", email).First(&user)` (ids grow with insertion
order, so the first match in insertion order is the first by key). -/
def dbFirstByEmail (db : Db) (email : String) : Except String User :=
  match db.users.find? (fun v => v.email == email) with
  | some u => .ok u
  | none => .error recordNotFoundMsg

/-- GORM call `db.Save(user)`: update-by-primary-key of all fields, stamping
`UpdatedAt`; the unique index rejects an email held by a different row;
an UPDATE matching no row succeeds without effect. -/
def dbSave (db : Db) (now : Nat) (u : User) : Except String (Db × User) :=
  let saved : User := { u with updatedAt := now }
  if db.users.any (fun v => v.id != u.id && v.email == u.email) then
    if db.users.any (fun v => v.id == u.id) then .error duplicateKeyMsg
    else .ok (db, saved)
  else
    .ok ({ db with
            users := db.users.map (fun v => if v.id == u.id then saved else v) },
         saved)

/-- GORM call `db.Delete(&models.User{}, id)`: deleting an absent id is not an
error. -/
def dbDelete (db : Db) (id : Nat) : Except String Db :=
  .ok { db with users := db.users.filter (fun v => v.id != id) }

/-- Feed one deterministic persistence call through `ExecuteWithRetry`
(the shape of every `...WithRetry` wrapper in `database.go`): the
operation closure returns the call's error, so a successful call
succeeds on attempt 1 and a failing call fails identically on every
attempt. -/
def liftDbOp (operation : String) (cfg : RetryConfig) {α : Type}
    (res : Except String α) : RetryTrace × Except String α :=
  let trace := ExecuteWithRetry operation
    (fun _ => match res with | .ok _ => none | .error e => some e) cfg
  (trace,
   match trace.result with
   | none => res
   | some m => .error m)

/-- Function `database.CreateUserWithRetry`.  The closure's duplicate-key check
only logs; both branches return the error to `ExecuteWithRetry`. -/
def CreateUserWithRetry (db : Db) (now : Nat) (u : User) :
    RetryTrace × Except String (Db × User) :=
  liftDbOp "create_user" DefaultRetryConfig (dbCreate db now u)

/-- Function `database.FindUserByIDWithRetry`.  The closure's not-found check
only logs; both branches return the error to `ExecuteWithRetry`. -/
def FindUserByIDWithRetry (db : Db) (id : Nat) :
    RetryTrace × Except String User :=
  liftDbOp "find_user_by_id" DefaultRetryConfig (dbFirstById db id)

/-- Function `database.FindUserByEmailWithRetry`. -/
def FindUserByEmailWithRetry (db : Db) (email : String) :
    RetryTrace × Except String User :=
  liftDbOp "find_user_by_email" DefaultRetryConfig (dbFirstByEmail db email)

/-- Function `database.UpdateUserWithRetry`. -/
def UpdateUserWithRetry (db : Db) (now : Nat) (u : User) :
    RetryTrace × Except String (Db × User) :=
  liftDbOp "update_user" DefaultRetryConfig (dbSave db now u)

/-- Function `database.DeleteUserWithRetry`. -/
def DeleteUserWithRetry (db : Db) (id : Nat) :
    RetryTrace × Except String Db :=
  liftDbOp "delete_user" DefaultRetryConfig (dbDelete db id)

/-- Function `database.GetAllUsersWithRetry`. -/
def GetAllUsersWithRetry (db : Db) :
    RetryTrace × Except String (List User) :=
  liftDbOp "get_all_users" DefaultRetryConfig (.ok db.users)

/- ---------------------------------------------------------------
   internal/service/service.go — UserService
   --------------------------------------------------------------- -/

/-- Modelled from the spec: the hashing collaborator (`bcrypt`) is
"one-way, verifiable" with internals out of scope; it is modelled as a
deterministic injective digest. -/
def bcryptHash (plaintext : String) : String :=
  "bcrypt-digest:" ++ plaintext

/-- Modelled from the spec: `bcrypt.CompareHashAndPassword` succeeds
exactly when the digest was produced from the plaintext. -/
def bcryptVerify (digest plaintext : String) : Bool :=
  digest == bcryptHash plaintext

namespace service

/-- Function `UserService.CreateUser`: hash the password, build the
`User` value (all other fields zero), delegate to the data-access
layer. -/
def CreateUser (db : Db) (now : Nat) (name email password : String) :
    Except String (Db × User) :=
  let hashed := bcryptHash password
  let u : User :=
    { id := 0, name := name, email := email, password := hashed,
      createdAt := 0, updatedAt := 0 }
  (CreateUserWithRetry db now u).2

/-- Function `UserService.GetUser`. -/
def GetUser (db : Db) (id : Nat) : Except String User :=
  (FindUserByIDWithRetry db id).2

/-- Function `UserService.GetUserByEmail`. -/
def GetUserByEmail (db : Db) (email : String) : Except String User :=
  (FindUserByEmailWithRetry db email).2

/-- Function `UserService.UpdateUser`: load the user (errors propagate),
overwrite name/email only when the argument is non-empty, then save. -/
def UpdateUser (db : Db) (now : Nat) (id : Nat) (name email : String) :
    Except String (Db × User) :=
  match (FindUserByIDWithRetry db id).2 with
  | .error e => .error e
  | .ok user =>
    let user1 := if name != "" then { user with name := name } else user
    let user2 := if email != "" then { user1 with email := email } else user1
    (UpdateUserWithRetry db now user2).2

/-- Function `UserService.DeleteUser`. -/
def DeleteUser (db : Db) (id : Nat) : Except String Db :=
  (DeleteUserWithRetry db id).2

/-- Function `UserService.ListUsers`. -/
def ListUsers (db : Db) : Except String (List User) :=
  (GetAllUsersWithRetry db).2

/-- Function `UserService.ValidatePassword`: true iff
`bcrypt.CompareHashAndPassword` returns nil. -/
def ValidatePassword (user : User) (password : String) : Bool :=
  bcryptVerify user.password password

end service

/- ---------------------------------------------------------------
   pkg/models/user.go — request DTOs and their binding tags
   --------------------------------------------------------------- -/

/-- DTO `models.SignupRequest` with tags
`name: required / email: required,email / password: required,min=6`. -/
structure SignupRequest where
  name : String
  email : String
  password : String
deriving DecidableEq

/-- DTO `models.LoginRequest` with tags
`email: required,email / password: required`. -/
structure LoginRequest where
  email : String
  password : String
deriving DecidableEq

/-- DTO `models.RestUpdateUserRequest`: no binding constraints. -/
structure RestUpdateUserRequest where
  name : String
  email : String
deriving DecidableEq

/-- Gin binding evaluation for `SignupRequest` (`ShouldBindJSON`):
`required` means non-empty, `min=6` a rune count of at least 6;
the `email` format validator is an external collaborator (wire-format
parsing is out of scope) and is passed in as `emailOk`. -/
def bindSignupOk (emailOk : String → Bool) (r : SignupRequest) : Bool :=
  (!(r.name == "")) && (!(r.email == "")) && emailOk r.email &&
    (!(r.password == "")) && decide (6 ≤ r.password.length)

/-- Gin binding evaluation for `LoginRequest`. -/
def bindLoginOk (emailOk : String → Bool) (r : LoginRequest) : Bool :=
  (!(r.email == "")) && emailOk r.email && (!(r.password == ""))

/- ---------------------------------------------------------------
   internal/api/handlers.go — HTTP adapter (Gin)
   --------------------------------------------------------------- -/

/-- Caller-visible HTTP response: a success carries the status, the
serialized user if any (password excluded by `json:"-"` is still a
field of `User` here; it is never compared), the message and the token;
a failure carries the status and the error body. -/
inductive HttpResp where
  | success (status : Nat) (user : Option User) (message : String)
      (token : Option String)
  | failure (status : Nat) (errMsg : String)
deriving DecidableEq

/-- Function `generateJWT`: the credential collaborator issues an opaque
signed token for the subject id; signing mechanics are out of scope, so
the token is modelled as an injective encoding of the id. -/
def generateJWT (userID : Nat) : String :=
  "jwt-token-for:" ++ toString userID

/-- The body Gin produces for a failed `ShouldBindJSON`. -/
def bindErrMsg : String := "binding error"

namespace api

/-- Handler `api.Signup`: bind, create through the service, map a
duplicate-key failure to 409 and any other failure to 500, issue a JWT
on success (201). -/
def Signup (emailOk : String → Bool) (db : Db) (now : Nat)
    (req : SignupRequest) : Db × HttpResp :=
  if bindSignupOk emailOk req then
    match service.CreateUser db now req.name req.email req.password with
    | .error e =>
      if strContains e "duplicate key" then
        (db, .failure 409 "Email already exists")
      else
        (db, .failure 500 "Failed to create user")
    | .ok (db2, user) =>
      (db2, .success 201 (some user) "User created successfully"
        (some (generateJWT user.id)))
  else
    (db, .failure 400 bindErrMsg)

/-- Handler `api.Login`: bind, look the account up by email (any failure
is answered 401 "Invalid credentials"), check the password (mismatch is
answered 401 "Invalid credentials"), issue a JWT on success. -/
def Login (emailOk : String → Bool) (db : Db) (req : LoginRequest) :
    Db × HttpResp :=
  if bindLoginOk emailOk req then
    match service.GetUserByEmail db req.email with
    | .error _ => (db, .failure 401 "Invalid credentials")
    | .ok user =>
      if service.ValidatePassword user req.password then
        (db, .success 200 (some user) "Login successful"
          (some (generateJWT user.id)))
      else
        (db, .failure 401 "Invalid credentials")
  else
    (db, .failure 400 bindErrMsg)

/-- Handler `api.GetUser` (the `:id` route parameter is already parsed;
parse failures answer 400 before the service is reached). Any service
failure is answered 404. -/
def GetUser (db : Db) (id : Nat) : Db × HttpResp :=
  match service.GetUser db id with
  | .error _ => (db, .failure 404 "User not found")
  | .ok user => (db, .success 200 (some user) "" none)

/-- Handler `api.UpdateUser`: a duplicate-key failure is answered 409,
any other failure (including not-found) 500. -/
def UpdateUser (db : Db) (now : Nat) (id : Nat)
    (req : RestUpdateUserRequest) : Db × HttpResp :=
  match service.UpdateUser db now id req.name req.email with
  | .error e =>
    if strContains e "duplicate key" then
      (db, .failure 409 "Email already exists")
    else
      (db, .failure 500 "Failed to update user")
  | .ok (db2, user) =>
    (db2, .success 200 (some user) "User updated successfully" none)

/-- Handler `api.DeleteUser`: any failure is answered 500. -/
def DeleteUser (db : Db) (id : Nat) : Db × HttpResp :=
  match service.DeleteUser db id with
  | .error _ => (db, .failure 500 "Failed to delete user")
  | .ok db2 => (db2, .success 200 none "User deleted successfully" none)

end api

/- ---------------------------------------------------------------
   internal/grpc/grpc_server.go — gRPC adapter
   --------------------------------------------------------------- -/

/-- The gRPC status codes the adapter uses. -/
inductive GrpcCode where
  | invalidArgument
  | notFound
  | alreadyExists
  | internal
deriving DecidableEq

/-- Message `proto.ProtoUser` (timestamps stay numeric; RFC3339
formatting is wire-format rendering, out of scope). -/
structure ProtoUser where
  id : Nat
  name : String
  email : String
  createdAt : Nat
  updatedAt : Nat
deriving DecidableEq

/-- Helper `userToProtoUser`. -/
def userToProtoUser (u : User) : ProtoUser :=
  { id := u.id, name := u.name, email := u.email,
    createdAt := u.createdAt, updatedAt := u.updatedAt }

/-- Message `proto.CreateUserRequest`. -/
structure CreateUserRequest where
  name : String
  email : String
  password : String
deriving DecidableEq

/-- Message `proto.UpdateUserRequest`. -/
structure UpdateUserRequest where
  id : Nat
  name : String
  email : String
deriving DecidableEq

/-- A gRPC reply: either a status error (code and message) or the
response payload. -/
def GrpcReply (α : Type) : Type := Db × Except (GrpcCode × String) α

namespace GrpcUserService

/-- Method `GrpcUserService.CreateUser`: reject empty name/email/password
with `InvalidArgument` before the service is called; map a duplicate-key
failure to `AlreadyExists` and any other failure to `Internal`. -/
def CreateUser (db : Db) (now : Nat) (req : CreateUserRequest) :
    GrpcReply (ProtoUser × String) :=
  if req.name == "" || req.email == "" || req.password == "" then
    (db, .error (.invalidArgument, "name, email, and password are required"))
  else
    match service.CreateUser db now req.name req.email req.password with
    | .error e =>
      if strContains e "duplicate key" then
        (db, .error (.alreadyExists, "email already exists"))
      else
        (db, .error (.internal, "failed to create user"))
    | .ok (db2, user) =>
      (db2, .ok (userToProtoUser user, "User created successfully"))

/-- Method `GrpcUserService.GetUser`: every service failure is answered
`NotFound`. -/
def GetUser (db : Db) (id : Nat) : GrpcReply (ProtoUser × String) :=
  match service.GetUser db id with
  | .error _ => (db, .error (.notFound, "user not found"))
  | .ok user => (db, .ok (userToProtoUser user, "User retrieved successfully"))

/-- Method `GrpcUserService.UpdateUser`: a duplicate-key failure is
answered `AlreadyExists`, any other failure (including not-found)
`Internal`. -/
def UpdateUser (db : Db) (now : Nat) (req : UpdateUserRequest) :
    GrpcReply (ProtoUser × String) :=
  match service.UpdateUser db now req.id req.name req.email with
  | .error e =>
    if strContains e "duplicate key" then
      (db, .error (.alreadyExists, "email already exists"))
    else
      (db, .error (.internal, "failed to update user"))
  | .ok (db2, user) =>
    (db2, .ok (userToProtoUser user, "User updated successfully"))

/-- Method `GrpcUserService.DeleteUser`: any failure is answered
`Internal`. -/
def DeleteUser (db : Db) (id : Nat) : GrpcReply String :=
  match service.DeleteUser db id with
  | .error _ => (db, .error (.internal, "failed to delete user"))
  | .ok db2 => (db2, .ok "User deleted successfully")

end GrpcUserService

/- ---------------------------------------------------------------
   Helper lemmas
   --------------------------------------------------------------- -/

theorem strToList_append (a b : String) :
    (a ++ b).toList = a.toList ++ b.toList := rfl

theorem charsContain_nil (r : List Char) : charsContain r [] = true := by
  cases r <;> simp [charsContain, charsHavePre]

theorem charsHavePre_append (p r : List Char) :
    charsHavePre (p ++ r) p = true := by
  induction p with
  | nil => simp [charsHavePre]
  | cons c cs ih => simp [charsHavePre, ih]

theorem charsContain_append (l p r : List Char) :
    charsContain (l ++ (p ++ r)) p = true := by
  induction l with
  | nil =>
    cases p with
    | nil => simpa using charsContain_nil r
    | cons c cs =>
      have h := charsHavePre_append (c :: cs) r
      simp only [List.nil_append, List.cons_append] at h ⊢
      simp [charsContain, h]
  | cons x l ih => simp [charsContain, ih]

/-- Go `strings.Contains` finds any explicitly concatenated-in
substring. -/
theorem strContains_middle (a mid b : String) :
    strContains (a ++ mid ++ b) mid = true := by
  unfold strContains
  rw [String.append_assoc, strToList_append, strToList_append]
  exact charsContain_append _ _ _

/-- Delays of either loop exit. -/
def LoopOut.sleeps : LoopOut → List Nat
  | .success _ ds => ds
  | .exhausted _ _ ds => ds

theorem executeWithRetry_delays (op : String) (fn : Nat → Option String)
    (cfg : RetryConfig) :
    (ExecuteWithRetry op fn cfg).delays =
      (retryLoop fn cfg 1 cfg.maxAttempts).sleeps := by
  cases h : retryLoop fn cfg 1 cfg.maxAttempts <;>
    simp [ExecuteWithRetry, h, LoopOut.sleeps]

theorem retryLoop_sleeps_cons (fn : Nat → Option String) (cfg : RetryConfig)
    (a r : Nat) (e : String) (he : fn a = some e) (hr : r ≠ 0) :
    (retryLoop fn cfg a (r + 1)).sleeps =
      calculateDelay a cfg.baseDelay cfg.maxDelay ::
        (retryLoop fn cfg (a + 1) r).sleeps := by
  cases h : retryLoop fn cfg (a + 1) r <;>
    simp [retryLoop, he, hr, h, LoopOut.sleeps]

theorem retryLoop_sleeps_get (fn : Nat → Option String) (cfg : RetryConfig) :
    ∀ (r a j d : Nat),
      (retryLoop fn cfg a r).sleeps.get? j = some d →
      d = calculateDelay (a + j) cfg.baseDelay cfg.maxDelay := by
  intro r
  induction r with
  | zero => intro a j d h; simp [retryLoop, LoopOut.sleeps] at h
  | succ r ih =>
    intro a j d h
    cases he : fn a with
    | none => simp [retryLoop, he, LoopOut.sleeps] at h
    | some e =>
      by_cases hr : r = 0
      · subst hr; simp [retryLoop, he, LoopOut.sleeps] at h
      · rw [retryLoop_sleeps_cons fn cfg a r e he hr] at h
        cases j with
        | zero =>
          simp only [List.get?_cons_zero, Option.some.injEq] at h
          simpa using h.symm
        | succ j =>
          simp only [List.get?_cons_succ] at h
          have := ih (a + 1) j d h
          have harith : a + 1 + j = a + (j + 1) := by omega
          rwa [harith] at this

theorem retryLoop_allFail (fn : Nat → Option String) (cfg : RetryConfig)
    (hfail : ∀ i, fn i ≠ none) :
    ∀ (r a : Nat), 1 ≤ r → ∃ ds e, fn (a + r - 1) = some e ∧
      retryLoop fn cfg a r = .exhausted (some e) r ds := by
  intro r
  induction r with
  | zero => intro a h; omega
  | succ r ih =>
    intro a _
    obtain ⟨e, he⟩ : ∃ e, fn a = some e := by
      cases h : fn a with
      | none => exact absurd h (hfail a)
      | some e => exact ⟨e, rfl⟩
    by_cases hr : r = 0
    · subst hr
      exact ⟨[], e, by simpa using he, by simp [retryLoop, he]⟩
    · obtain ⟨ds, e2, he2, hloop⟩ := ih (a + 1) (Nat.one_le_iff_ne_zero.mpr hr)
      refine ⟨calculateDelay a cfg.baseDelay cfg.maxDelay :: ds, e2, ?_, ?_⟩
      · have harith : a + 1 + r - 1 = a + (r + 1) - 1 := by omega
        rwa [harith] at he2
      · simp [retryLoop, he, hr, hloop]

/-- A deterministic successful persistence call passes through the
default retry wrapper untouched, after exactly one attempt. -/
theorem liftDbOp_default_ok {α : Type} (op : String) (a : α) :
    liftDbOp op DefaultRetryConfig (.ok a) =
      ({ result := none, invocations := 1, delays := [] }, .ok a) := rfl

/-- A deterministic failing persistence call is retried three times by
the default wrapper and surfaces as the wrapped exhaustion error. -/
theorem liftDbOp_default_error {α : Type} (op e : String) :
    liftDbOp op DefaultRetryConfig (.error e : Except String α) =
      ({ result := some (wrapMsg op 3 (some e)), invocations := 3,
         delays := [100000000, 200000000] },
       .error (wrapMsg op 3 (some e))) := rfl

/- ---------------------------------------------------------------
   Claims
   --------------------------------------------------------------- -/

/-- A store holding one user, Ann, for concrete scenarios. -/
def annUser : User :=
  { id := 1, name := "Ann", email := "ann@x.com",
    password := bcryptHash "secret1", createdAt := 0, updatedAt := 0 }

def annDb : Db := { users := [annUser], nextId := 2 }

/-- The zero-ID struct `UserService.CreateUser` builds for Ann2 with
Ann's email. -/
def ann2Input : User :=
  { id := 0, name := "Ann2", email := "ann@x.com",
    password := bcryptHash "secret2", createdAt := 0, updatedAt := 0 }

/-- C1: the claim says a Terminal first failure (record not found,
unique violation) is returned immediately with the operation invoked
exactly once.  The code violates this: `ExecuteWithRetry` contains no
error classification, so `FindUserByIDWithRetry` on a nonexistent id
invokes the persistence call `maxAttempts = 3` times, sleeps the two
backoff delays, and returns the wrapped exhaustion error — even though
the closure in `database.go` is commented "Return immediately, don't
retry". -/
theorem findUserByID_notFound_is_retried_three_times :
    (FindUserByIDWithRetry emptyDb 1).1.invocations = 3 ∧
    (FindUserByIDWithRetry emptyDb 1).1.delays = [100000000, 200000000] ∧
    (FindUserByIDWithRetry emptyDb 1).2 =
      .error (wrapMsg "find_user_by_id" 3 (some recordNotFoundMsg)) ∧
    (CreateUserWithRetry annDb 5 ann2Input).1.invocations = 3 :=
  ⟨rfl, rfl, rfl, rfl⟩

/-- C2 counterexample: with the default policy the delay slept before
attempt 6 is `min(100ms·2⁴, 2s) = 1.6s`, not the 2s cap claimed
("capping at 2s by attempt 6 and beyond"); an always-failing operation
run under an 8-attempt policy with the default base and cap sleeps
100,200,400,800,1600,2000,2000 ms — the cap is first reached before
attempt 7. -/
theorem backoff_cap_first_reached_before_attempt_seven :
    (ExecuteWithRetry "op" (fun _ => some connRefusedMsg)
        { maxAttempts := 8, baseDelay := 100000000,
          maxDelay := 2000000000 }).delays =
      [100000000, 200000000, 400000000, 800000000, 1600000000,
       2000000000, 2000000000] ∧
    calculateDelay 5 DefaultRetryConfig.baseDelay DefaultRetryConfig.maxDelay
      = 1600000000 ∧
    (1600000000 : Nat) ≠ 2000000000 :=
  ⟨rfl, rfl, by decide⟩

/-- C2 (amended): the delay slept before retry attempt `k` (`k ≥ 2`)
equals `min(baseDelay·2^(k−2), maxDelay)`; with the default base 100ms
and cap 2s this doubles from 100ms before attempt 2 up to 1.6s before
attempt 6 and caps at 2s from attempt 7 onward. -/
theorem backoff_delay_formula :
    (∀ (op : String) (fn : Nat → Option String) (cfg : RetryConfig)
        (k d : Nat), 2 ≤ k →
        (ExecuteWithRetry op fn cfg).delays.get? (k - 2) = some d →
        d = min (cfg.baseDelay * 2 ^ (k - 2)) cfg.maxDelay) ∧
    (∀ k : Nat, 2 ≤ k → k ≤ 6 →
        calculateDelay (k - 1) DefaultRetryConfig.baseDelay
          DefaultRetryConfig.maxDelay = 100000000 * 2 ^ (k - 2)) ∧
    (∀ k : Nat, 7 ≤ k →
        calculateDelay (k - 1) DefaultRetryConfig.baseDelay
          DefaultRetryConfig.maxDelay = 2000000000) := by
  refine ⟨?_, ?_, ?_⟩
  · intro op fn cfg k d hk h
    rw [executeWithRetry_delays] at h
    have := retryLoop_sleeps_get fn cfg cfg.maxAttempts 1 (k - 2) d h
    unfold calculateDelay at this
    have harith : 1 + (k - 2) - 1 = k - 2 := by omega
    rwa [harith] at this
  · intro k h2 h6
    interval_cases k <;> decide
  · intro k h7
    unfold calculateDelay DefaultRetryConfig
    simp only
    have harith : k - 1 - 1 = k - 2 := by omega
    rw [harith]
    have hpow : 2 ^ 5 ≤ 2 ^ (k - 2) :=
      Nat.pow_le_pow_right (by omega) (by omega)
    have : 2000000000 ≤ 100000000 * 2 ^ (k - 2) := by
      calc 2000000000 ≤ 100000000 * 2 ^ 5 := by decide
        _ ≤ 100000000 * 2 ^ (k - 2) := Nat.mul_le_mul_left _ hpow
    omega

/-- C2 witness: the general formula instantiated at attempt 3 of an
always-failing run under the default policy. -/
theorem backoff_delay_formula_witness :
    (2 ≤ 3 ∧
      (ExecuteWithRetry "find_user_by_id" (fun _ => some connRefusedMsg)
        DefaultRetryConfig).delays.get? (3 - 2) = some 200000000) ∧
    (200000000 : Nat) =
      min (DefaultRetryConfig.baseDelay * 2 ^ (3 - 2))
        DefaultRetryConfig.maxDelay :=
  ⟨⟨by decide, rfl⟩,
    backoff_delay_formula.1 "find_user_by_id" (fun _ => some connRefusedMsg)
      DefaultRetryConfig 3 200000000 (by decide) rfl⟩

/-- C3: if every invocation of the operation function fails, the
executor invokes it exactly `maxAttempts` times and returns the error
that wraps the last underlying failure with the operation name and the
attempt count (the wrapped message interpolates both, and the count is
a substring of the message). -/
theorem retry_exhausts_all_attempts (op : String)
    (fn : Nat → Option String) (cfg : RetryConfig)
    (hmax : 1 ≤ cfg.maxAttempts) (hfail : ∀ i, fn i ≠ none) :
    (ExecuteWithRetry op fn cfg).invocations = cfg.maxAttempts ∧
    ∃ lastMsg, fn cfg.maxAttempts = some lastMsg ∧
      (ExecuteWithRetry op fn cfg).result =
        some (wrapMsg op cfg.maxAttempts (some lastMsg)) ∧
      strContains (wrapMsg op cfg.maxAttempts (some lastMsg))
        (toString cfg.maxAttempts) = true := by
  obtain ⟨ds, e, he, hloop⟩ :=
    retryLoop_allFail fn cfg hfail cfg.maxAttempts 1 hmax
  have he1 : fn cfg.maxAttempts = some e := by
    have harith : 1 + cfg.maxAttempts - 1 = cfg.maxAttempts := by omega
    rwa [harith] at he
  refine ⟨by simp [ExecuteWithRetry, hloop], e, he1,
    by simp [ExecuteWithRetry, hloop], ?_⟩
  have hshape : wrapMsg op cfg.maxAttempts (some e) =
      ("operation " ++ quoteStr op ++ " failed after ")
        ++ toString cfg.maxAttempts ++ (" attempts: " ++ e) := by
    unfold wrapMsg
    simp [String.append_assoc]
  rw [hshape]
  exact strContains_middle _ _ _

/-- C3 witness: the default policy against a persistence call that
always fails with a connection error. -/
theorem retry_exhausts_all_attempts_witness :
    (1 ≤ DefaultRetryConfig.maxAttempts ∧
      (∀ i : Nat, (fun _ => some connRefusedMsg : Nat → Option String) i
        ≠ none)) ∧
    (ExecuteWithRetry "create_user" (fun _ => some connRefusedMsg)
      DefaultRetryConfig).invocations = DefaultRetryConfig.maxAttempts :=
  ⟨⟨by decide, fun i => by simp⟩,
    (retry_exhausts_all_attempts "create_user" (fun _ => some connRefusedMsg)
      DefaultRetryConfig (by decide) (fun i => by simp)).1⟩

/- ---------------------------------------------------------------
   Service-layer helper lemmas
   --------------------------------------------------------------- -/

theorem findUserByID_found (db : Db) (id : Nat) (u : User)
    (h : db.users.find? (fun v => v.id == id) = some u) :
    FindUserByIDWithRetry db id =
      ({ result := none, invocations := 1, delays := [] }, .ok u) := by
  unfold FindUserByIDWithRetry
  rw [show dbFirstById db id = Except.ok u by simp [dbFirstById, h]]
  exact liftDbOp_default_ok _ _

theorem findUserByID_absent (db : Db) (id : Nat)
    (h : db.users.find? (fun v => v.id == id) = none) :
    FindUserByIDWithRetry db id =
      ({ result := some (wrapMsg "find_user_by_id" 3 (some recordNotFoundMsg)),
         invocations := 3, delays := [100000000, 200000000] },
       .error (wrapMsg "find_user_by_id" 3 (some recordNotFoundMsg))) := by
  unfold FindUserByIDWithRetry
  rw [show dbFirstById db id = Except.error recordNotFoundMsg by
    simp [dbFirstById, h]]
  exact liftDbOp_default_error _ _

theorem findUserByEmail_found (db : Db) (email : String) (u : User)
    (h : db.users.find? (fun v => v.email == email) = some u) :
    FindUserByEmailWithRetry db email =
      ({ result := none, invocations := 1, delays := [] }, .ok u) := by
  unfold FindUserByEmailWithRetry
  rw [show dbFirstByEmail db email = Except.ok u by simp [dbFirstByEmail, h]]
  exact liftDbOp_default_ok _ _

theorem findUserByEmail_absent (db : Db) (email : String)
    (h : db.users.find? (fun v => v.email == email) = none) :
    FindUserByEmailWithRetry db email =
      ({ result := some (wrapMsg "find_user_by_email" 3
           (some recordNotFoundMsg)),
         invocations := 3, delays := [100000000, 200000000] },
       .error (wrapMsg "find_user_by_email" 3 (some recordNotFoundMsg))) := by
  unfold FindUserByEmailWithRetry
  rw [show dbFirstByEmail db email = Except.error recordNotFoundMsg by
    simp [dbFirstByEmail, h]]
  exact liftDbOp_default_error _ _

/-- The user value `UserService.UpdateUser` builds and persists: name
and email overwritten when the argument is non-empty, `UpdatedAt`
stamped by the save. -/
def updatedUser (u : User) (name email : String) (now : Nat) : User :=
  { u with
    name := if name = "" then u.name else name,
    email := if email = "" then u.email else email,
    updatedAt := now }


theorem find?_map_replace (l : List User) (id : Nat) (u u2 : User)
    (hfind : l.find? (fun v => v.id == id) = some u) (hid : u2.id = u.id) :
    (l.map (fun v => if v.id == u.id then u2 else v)).find?
      (fun v => v.id == id) = some u2 := by
  have hu : (u.id == id) = true := by simpa using List.find?_some hfind
  induction l with
  | nil => simp at hfind
  | cons x t ih =>
    by_cases hx : (x.id == id) = true
    · have hxu : x = u := by
        rw [show List.find? (fun v => v.id == id) (x :: t) = some x from
          by simp [hx]] at hfind
        injection hfind
      subst hxu
      have hu2 : (u2.id == id) = true := by rw [hid]; exact hu
      simp only [List.map_cons, beq_self_eq_true, if_true]
      simp [hu2]
    · rw [show List.find? (fun v => v.id == id) (x :: t) =
          List.find? (fun v => v.id == id) t from by simp [hx]] at hfind
      have hxu : (x.id == u.id) = false := by
        have h1 : x.id ≠ id := by simpa using hx
        have h2 : u.id = id := by simpa using hu
        simp [h2, h1]
      simp only [List.map_cons, hxu, Bool.false_eq_true, if_false]
      rw [show List.find? (fun v => v.id == id)
            (x :: List.map (fun v => if v.id == u.id then u2 else v) t) =
          List.find? (fun v => v.id == id)
            (List.map (fun v => if v.id == u.id then u2 else v) t) from
        by simp [hx]]
      exact ih hfind

/-- The two nested conditional overwrites in `UserService.UpdateUser`
collapse to `updatedUser` (up to the `UpdatedAt` stamp added later). -/
theorem updateUser_fields (u : User) (name email : String) :
    (if email != "" then
        { (if name != "" then { u with name := name } else u) with
          email := email }
      else (if name != "" then { u with name := name } else u)) =
    { u with
      name := if name = "" then u.name else name,
      email := if email = "" then u.email else email } := by
  obtain ⟨uid, uname, uemail, upw, ucr, uup⟩ := u
  by_cases h1 : name = "" <;> by_cases h2 : email = "" <;>
    simp [h1, h2]

/-- Constructive characterization of `UserService.UpdateUser`: when the
user exists and the target email collides with no other row, the update
succeeds, persisting and returning `updatedUser`. -/
theorem updateUser_eq (db : Db) (now id : Nat) (name email : String)
    (u : User)
    (hfind : db.users.find? (fun v => v.id == id) = some u)
    (hconf : db.users.any (fun v => v.id != u.id &&
        v.email == (if email = "" then u.email else email)) = false) :
    service.UpdateUser db now id name email =
      .ok ({ db with users := db.users.map (fun v =>
               if v.id == u.id then updatedUser u name email now else v) },
           updatedUser u name email now) := by
  unfold service.UpdateUser
  rw [findUserByID_found db id u hfind]
  dsimp only
  rw [updateUser_fields u name email]
  unfold UpdateUserWithRetry
  have hsave : dbSave db now
      { u with
        name := if name = "" then u.name else name,
        email := if email = "" then u.email else email } =
      Except.ok ({ db with users := db.users.map (fun v =>
          if v.id == u.id then updatedUser u name email now else v) },
        updatedUser u name email now) := by
    unfold dbSave
    rw [show (db.users.any fun v => v.id !=
        ({ u with
           name := if name = "" then u.name else name,
           email := if email = "" then u.email else email } : User).id &&
        v.email == ({ u with
           name := if name = "" then u.name else name,
           email := if email = "" then u.email else email } : User).email)
        = false from hconf]
    simp only [Bool.false_eq_true, if_false, updatedUser]
  rw [hsave, liftDbOp_default_ok]

/-- Inversion of a successful `UserService.UpdateUser`: it can only have
loaded an existing user and persisted `updatedUser`. -/
theorem updateUser_ok_inv (db : Db) (now id : Nat) (name email : String)
    (db2 : Db) (u2 : User)
    (h : service.UpdateUser db now id name email = .ok (db2, u2)) :
    ∃ u, db.users.find? (fun v => v.id == id) = some u ∧
      u2 = updatedUser u name email now ∧
      db2 = { db with users := db.users.map (fun v =>
                if v.id == u.id then u2 else v) } := by
  cases hfind : db.users.find? (fun v => v.id == id) with
  | none =>
    unfold service.UpdateUser at h
    rw [findUserByID_absent db id hfind] at h
    simp at h
  | some u =>
    unfold service.UpdateUser at h
    rw [findUserByID_found db id u hfind] at h
    dsimp only at h
    rw [updateUser_fields u name email] at h
    unfold UpdateUserWithRetry at h
    cases hc : db.users.any (fun v =>
        v.id != ({ u with
          name := if name = "" then u.name else name,
          email := if email = "" then u.email else email } : User).id &&
        v.email == ({ u with
          name := if name = "" then u.name else name,
          email := if email = "" then u.email else email } : User).email) with
    | true =>
      have hidany : db.users.any (fun v =>
          v.id == ({ u with
            name := if name = "" then u.name else name,
            email := if email = "" then u.email else email } : User).id)
          = true :=
        List.any_eq_true.mpr
          ⟨u, List.mem_of_find?_eq_some hfind, by simp⟩
      rw [show dbSave db now
          { u with
            name := if name = "" then u.name else name,
            email := if email = "" then u.email else email } =
          Except.error duplicateKeyMsg from by
        unfold dbSave
        rw [hc, hidany]
        simp] at h
      rw [liftDbOp_default_error] at h
      simp at h
    | false =>
      rw [show dbSave db now
          { u with
            name := if name = "" then u.name else name,
            email := if email = "" then u.email else email } =
          Except.ok ({ db with users := db.users.map (fun v =>
              if v.id == u.id then updatedUser u name email now else v) },
            updatedUser u name email now) from by
        unfold dbSave
        rw [hc]
        simp only [Bool.false_eq_true, if_false, updatedUser]] at h
      rw [liftDbOp_default_ok] at h
      dsimp only at h
      simp only [Except.ok.injEq, Prod.mk.injEq] at h
      obtain ⟨hdb, hu⟩ := h
      subst hu
      exact ⟨u, rfl, rfl, hdb.symm⟩

/-- C4: `UpdateUser(id, name, email)` has partial-update semantics —
for an existing user (and a target email colliding with no other row)
an empty argument leaves the stored field unchanged and a non-empty
argument overwrites it, both in the returned user and in the persisted
row. -/
theorem updateUser_empty_field_keeps_value (db : Db) (now id : Nat)
    (name email : String) (u : User)
    (hfind : db.users.find? (fun v => v.id == id) = some u)
    (hconf : db.users.any (fun v => v.id != u.id &&
        v.email == (if email = "" then u.email else email)) = false) :
    ∃ db2 u2, service.UpdateUser db now id name email = .ok (db2, u2) ∧
      u2.name = (if name = "" then u.name else name) ∧
      u2.email = (if email = "" then u.email else email) ∧
      db2.users.find? (fun v => v.id == id) = some u2 := by
  refine ⟨_, _, updateUser_eq db now id name email u hfind hconf,
    by simp [updatedUser], by simp [updatedUser], ?_⟩
  exact find?_map_replace db.users id u (updatedUser u name email now)
    hfind (by simp [updatedUser])

/-- C4 witness: updating Ann with an empty name and a new email changes
only the email. -/
theorem updateUser_empty_field_keeps_value_witness :
    (annDb.users.find? (fun v => v.id == 1) = some annUser ∧
      annDb.users.any (fun v => v.id != annUser.id &&
        v.email == (if "new@x.com" = "" then annUser.email
          else "new@x.com")) = false) ∧
    (∃ db2 u2, service.UpdateUser annDb 9 1 "" "new@x.com" = .ok (db2, u2) ∧
      u2.name = (if "" = "" then annUser.name else "") ∧
      u2.email = (if "new@x.com" = "" then annUser.email
        else "new@x.com") ∧
      db2.users.find? (fun v => v.id == 1) = some u2) :=
  ⟨⟨rfl, rfl⟩,
    updateUser_empty_field_keeps_value annDb 9 1 "" "new@x.com" annUser
      rfl rfl⟩

/-- The user and store produced by `UpdateUser(1, "", "new@x.com")` on
the one-user store. -/
def annU2 : User := { annUser with email := "new@x.com", updatedAt := 9 }

def annDb2 : Db := { users := [annU2], nextId := 2 }

/-- C10: `UpdateUser` never modifies the identifier, the password
digest, or the created timestamp — every successful call returns and
persists a user agreeing with the loaded user on `ID`, `Password` and
`CreatedAt`. -/
theorem updateUser_preserves_identity (db : Db) (now id : Nat)
    (name email : String) (db2 : Db) (u2 : User)
    (h : service.UpdateUser db now id name email = .ok (db2, u2)) :
    ∃ u, db.users.find? (fun v => v.id == id) = some u ∧
      u2.id = u.id ∧ u2.password = u.password ∧
      u2.createdAt = u.createdAt ∧
      db2.users.find? (fun v => v.id == id) = some u2 := by
  obtain ⟨u, hfind, hu2, hdb2⟩ :=
    updateUser_ok_inv db now id name email db2 u2 h
  subst hu2
  subst hdb2
  refine ⟨u, hfind, by simp [updatedUser], by simp [updatedUser],
    by simp [updatedUser], ?_⟩
  exact find?_map_replace db.users id u (updatedUser u name email now)
    hfind (by simp [updatedUser])

/-- C10 witness: the concrete update of Ann keeps id 1, her digest and
created time 0. -/
theorem updateUser_preserves_identity_witness :
    service.UpdateUser annDb 9 1 "" "new@x.com" = .ok (annDb2, annU2) ∧
    (∃ u, annDb.users.find? (fun v => v.id == 1) = some u ∧
      annU2.id = u.id ∧ annU2.password = u.password ∧
      annU2.createdAt = u.createdAt ∧
      annDb2.users.find? (fun v => v.id == 1) = some annU2) :=
  ⟨rfl,
    updateUser_preserves_identity annDb 9 1 "" "new@x.com" annDb2 annU2
      rfl⟩

/- ---------------------------------------------------------------
   Create-path lemmas
   --------------------------------------------------------------- -/


/-- The user `UserService.CreateUser` persists when the email is free:
the next primary key, the hashed password, both timestamps stamped. -/
def newUser (db : Db) (now : Nat) (n e p : String) : User :=
  { id := db.nextId, name := n, email := e, password := bcryptHash p,
    createdAt := now, updatedAt := now }

theorem serviceCreate_ok (db : Db) (now : Nat) (n e p : String)
    (hdup : db.users.any (fun v => v.email == e) = false) :
    service.CreateUser db now n e p =
      .ok ({ users := db.users ++ [newUser db now n e p],
             nextId := db.nextId + 1 }, newUser db now n e p) := by
  show (liftDbOp "create_user" DefaultRetryConfig (dbCreate db now
      { id := 0, name := n, email := e, password := bcryptHash p,
        createdAt := 0, updatedAt := 0 })).2 = _
  rw [show dbCreate db now
      { id := 0, name := n, email := e, password := bcryptHash p,
        createdAt := 0, updatedAt := 0 } =
      Except.ok ({ users := db.users ++ [newUser db now n e p],
                   nextId := db.nextId + 1 }, newUser db now n e p) from by
    unfold dbCreate
    dsimp only
    rw [hdup]
    simp [newUser]]
  rw [liftDbOp_default_ok]

theorem serviceCreate_dup (db : Db) (now : Nat) (n e p : String)
    (hdup : db.users.any (fun v => v.email == e) = true) :
    service.CreateUser db now n e p =
      .error (wrapMsg "create_user" 3 (some duplicateKeyMsg)) := by
  show (liftDbOp "create_user" DefaultRetryConfig (dbCreate db now
      { id := 0, name := n, email := e, password := bcryptHash p,
        createdAt := 0, updatedAt := 0 })).2 = _
  rw [show dbCreate db now
      { id := 0, name := n, email := e, password := bcryptHash p,
        createdAt := 0, updatedAt := 0 } =
      (Except.error duplicateKeyMsg : Except String (Db × User)) from by
    unfold dbCreate
    dsimp only
    rw [hdup]
    simp]
  rw [liftDbOp_default_error]

/-- Inversion of a successful `UserService.CreateUser`. -/
theorem createUser_ok_inv (db : Db) (now : Nat) (n e p : String)
    (db1 : Db) (u1 : User)
    (h : service.CreateUser db now n e p = .ok (db1, u1)) :
    db.users.any (fun v => v.email == e) = false ∧
    u1 = newUser db now n e p ∧
    db1 = { users := db.users ++ [u1], nextId := db.nextId + 1 } := by
  cases hdup : db.users.any (fun v => v.email == e) with
  | true => rw [serviceCreate_dup db now n e p hdup] at h; simp at h
  | false =>
    rw [serviceCreate_ok db now n e p hdup] at h
    simp only [Except.ok.injEq, Prod.mk.injEq] at h
    obtain ⟨hdb, hu⟩ := h
    subst hu
    exact ⟨rfl, rfl, hdb.symm⟩

/-- C5: creating a user with an email already stored fails with the
`AlreadyExists` domain outcome (the duplicate-key failure from the
store, wrapped by the retry layer, still carries the "duplicate key"
marker the adapters translate), and the failed call leaves the store —
and in particular the first user's stored name — unchanged. -/
theorem createUser_duplicate_email_rejected (db : Db) (now1 now2 : Nat)
    (n1 e p1 n2 p2 : String) (db1 : Db) (u1 : User)
    (h1 : service.CreateUser db now1 n1 e p1 = .ok (db1, u1))
    (hn2 : n2 ≠ "") (hp2 : p2 ≠ "") (he : e ≠ "") :
    service.CreateUser db1 now2 n2 e p2 =
      .error (wrapMsg "create_user" 3 (some duplicateKeyMsg)) ∧
    strContains (wrapMsg "create_user" 3 (some duplicateKeyMsg))
      "duplicate key" = true ∧
    GrpcUserService.CreateUser db1 now2
      { name := n2, email := e, password := p2 } =
      (db1, .error (.alreadyExists, "email already exists")) ∧
    u1 ∈ db1.users ∧ u1.name = n1 ∧ u1.email = e := by
  obtain ⟨hdup0, hu1, hdb1⟩ := createUser_ok_inv db now1 n1 e p1 db1 u1 h1
  have hmem : u1 ∈ db1.users := by
    rw [hdb1]; exact List.mem_append_right _ (List.mem_singleton.mpr rfl)
  have hemail : u1.email = e := by rw [hu1]; rfl
  have hdup1 : db1.users.any (fun v => v.email == e) = true :=
    List.any_eq_true.mpr ⟨u1, hmem, by simp [hemail]⟩
  have hsvc := serviceCreate_dup db1 now2 n2 e p2 hdup1
  have hcontains : strContains (wrapMsg "create_user" 3
      (some duplicateKeyMsg)) "duplicate key" = true := by decide
  refine ⟨hsvc, hcontains, ?_, hmem, by rw [hu1]; rfl, hemail⟩
  unfold GrpcUserService.CreateUser
  rw [show (({ name := n2, email := e, password := p2 } :
      CreateUserRequest).name == "" ||
      ({ name := n2, email := e, password := p2 } :
      CreateUserRequest).email == "" ||
      ({ name := n2, email := e, password := p2 } :
      CreateUserRequest).password == "") = false from by
    simp [hn2, hp2, he]]
  rw [hsvc]
  simp [hcontains]

/-- C5 witness: Ann is created on the empty store; creating Ann2 with
the same email is answered `AlreadyExists` and Ann is untouched. -/
theorem createUser_duplicate_email_rejected_witness :
    (service.CreateUser emptyDb 0 "Ann" "ann@x.com" "secret1" =
        .ok (annDb, annUser) ∧
      ("Ann2" : String) ≠ "" ∧ ("secret2" : String) ≠ "" ∧
      ("ann@x.com" : String) ≠ "") ∧
    (service.CreateUser annDb 3 "Ann2" "ann@x.com" "secret2" =
        .error (wrapMsg "create_user" 3 (some duplicateKeyMsg)) ∧
      strContains (wrapMsg "create_user" 3 (some duplicateKeyMsg))
        "duplicate key" = true ∧
      GrpcUserService.CreateUser annDb 3
        { name := "Ann2", email := "ann@x.com", password := "secret2" } =
        (annDb, .error (.alreadyExists, "email already exists")) ∧
      annUser ∈ annDb.users ∧ annUser.name = "Ann" ∧
      annUser.email = "ann@x.com") :=
  ⟨⟨rfl, by decide, by decide, by decide⟩,
    createUser_duplicate_email_rejected emptyDb 0 3 "Ann" "ann@x.com"
      "secret1" "Ann2" "secret2" annDb annUser rfl (by decide) (by decide)
      (by decide)⟩

/-- C7: a login with a wrong password and a login against a nonexistent
account produce byte-identical responses — status 401 with body
"Invalid credentials" — and neither touches the store. -/
theorem login_failures_indistinguishable (emailOk : String → Bool)
    (db1 db2 : Db) (r1 r2 : LoginRequest) (u : User)
    (hb1 : bindLoginOk emailOk r1 = true)
    (hb2 : bindLoginOk emailOk r2 = true)
    (hfound : db1.users.find? (fun v => v.email == r1.email) = some u)
    (hwrong : service.ValidatePassword u r1.password = false)
    (habsent : db2.users.find? (fun v => v.email == r2.email) = none) :
    api.Login emailOk db1 r1 = (db1, .failure 401 "Invalid credentials") ∧
    api.Login emailOk db2 r2 = (db2, .failure 401 "Invalid credentials") ∧
    (api.Login emailOk db1 r1).2 = (api.Login emailOk db2 r2).2 := by
  have hA : api.Login emailOk db1 r1 =
      (db1, .failure 401 "Invalid credentials") := by
    unfold api.Login
    rw [show service.GetUserByEmail db1 r1.email = Except.ok u from by
      unfold service.GetUserByEmail
      rw [findUserByEmail_found db1 r1.email u hfound]]
    simp [hb1, hwrong]
  have hB : api.Login emailOk db2 r2 =
      (db2, .failure 401 "Invalid credentials") := by
    unfold api.Login
    rw [show service.GetUserByEmail db2 r2.email =
        Except.error (wrapMsg "find_user_by_email" 3
          (some recordNotFoundMsg)) from by
      unfold service.GetUserByEmail
      rw [findUserByEmail_absent db2 r2.email habsent]]
    simp [hb2]
  exact ⟨hA, hB, by rw [hA, hB]⟩

/-- C7 witness: Ann with "wrong-password" against the one-user store and
an unknown account against the empty store get the same 401 response. -/
theorem login_failures_indistinguishable_witness :
    (bindLoginOk (fun _ => true)
        { email := "ann@x.com", password := "wrong-password" } = true ∧
      bindLoginOk (fun _ => true)
        { email := "bob@x.com", password := "whatever" } = true ∧
      annDb.users.find? (fun v => v.email == "ann@x.com") = some annUser ∧
      service.ValidatePassword annUser "wrong-password" = false ∧
      emptyDb.users.find? (fun v => v.email == "bob@x.com") = none) ∧
    api.Login (fun _ => true) annDb
        { email := "ann@x.com", password := "wrong-password" } =
      (annDb, .failure 401 "Invalid credentials") ∧
    api.Login (fun _ => true) emptyDb
        { email := "bob@x.com", password := "whatever" } =
      (emptyDb, .failure 401 "Invalid credentials") :=
  ⟨⟨rfl, rfl, rfl, by decide, rfl⟩,
    (login_failures_indistinguishable (fun _ => true) annDb emptyDb
      { email := "ann@x.com", password := "wrong-password" }
      { email := "bob@x.com", password := "whatever" } annUser
      rfl rfl rfl (by decide) rfl).1,
    (login_failures_indistinguishable (fun _ => true) annDb emptyDb
      { email := "ann@x.com", password := "wrong-password" }
      { email := "bob@x.com", password := "whatever" } annUser
      rfl rfl rfl (by decide) rfl).2.1⟩

/-- C9: the gRPC `CreateUser` rejects any request with an empty name,
email or password with `InvalidArgument` before the service (and hence
any hashing or persistence) is reached, leaving the store unchanged;
the HTTP signup rejects the analogous request — and any password of
fewer than 6 characters — at binding with a 400, also before the
service is reached. -/
theorem grpcCreate_rejects_empty_fields (db : Db) (now : Nat)
    (r : CreateUserRequest)
    (h : r.name = "" ∨ r.email = "" ∨ r.password = "") :
    GrpcUserService.CreateUser db now r =
      (db, .error (.invalidArgument,
        "name, email, and password are required")) ∧
    (∀ emailOk, bindSignupOk emailOk
      { name := r.name, email := r.email, password := r.password }
      = false) ∧
    (∀ emailOk (s : SignupRequest), s.password.length < 6 →
      bindSignupOk emailOk s = false) ∧
    (∀ emailOk (s : SignupRequest), bindSignupOk emailOk s = false →
      api.Signup emailOk db now s = (db, .failure 400 bindErrMsg)) := by
  refine ⟨?_, ?_, ?_, ?_⟩
  · unfold GrpcUserService.CreateUser
    rw [show (r.name == "" || r.email == "" || r.password == "")
        = true from by rcases h with h | h | h <;> simp [h]]
    simp
  · intro emailOk
    rcases h with h | h | h <;> simp [bindSignupOk, h]
  · intro emailOk s hlen
    have hnot : ¬ (6 ≤ s.password.length) := by omega
    simp [bindSignupOk, hnot]
  · intro emailOk s hbind
    unfold api.Signup
    simp [hbind]

/-- C9 witness: an empty name with a well-formed email and password. -/
theorem grpcCreate_rejects_empty_fields_witness :
    (("" : String) = "" ∨ ("ann@x.com" : String) = "" ∨
      ("secret1" : String) = "") ∧
    GrpcUserService.CreateUser emptyDb 0
      { name := "", email := "ann@x.com", password := "secret1" } =
      (emptyDb, .error (.invalidArgument,
        "name, email, and password are required")) :=
  ⟨Or.inl rfl,
    (grpcCreate_rejects_empty_fields emptyDb 0
      { name := "", email := "ann@x.com", password := "secret1" }
      (Or.inl rfl)).1⟩

/- ---------------------------------------------------------------
   Adapter error-mapping lemmas
   --------------------------------------------------------------- -/

theorem serviceGet_absent (db : Db) (id : Nat)
    (h : db.users.find? (fun v => v.id == id) = none) :
    service.GetUser db id =
      .error (wrapMsg "find_user_by_id" 3 (some recordNotFoundMsg)) := by
  unfold service.GetUser
  rw [findUserByID_absent db id h]

theorem serviceUpdate_absent (db : Db) (now id : Nat)
    (name email : String)
    (h : db.users.find? (fun v => v.id == id) = none) :
    service.UpdateUser db now id name email =
      .error (wrapMsg "find_user_by_id" 3 (some recordNotFoundMsg)) := by
  unfold service.UpdateUser
  rw [findUserByID_absent db id h]

theorem serviceUpdate_conflict (db : Db) (now id : Nat)
    (name email : String) (u : User)
    (hfind : db.users.find? (fun v => v.id == id) = some u)
    (hconf : db.users.any (fun v => v.id != u.id &&
        v.email == (if email = "" then u.email else email)) = true) :
    service.UpdateUser db now id name email =
      .error (wrapMsg "update_user" 3 (some duplicateKeyMsg)) := by
  unfold service.UpdateUser
  rw [findUserByID_found db id u hfind]
  dsimp only
  rw [updateUser_fields u name email]
  unfold UpdateUserWithRetry
  have hidany : db.users.any (fun v =>
      v.id == ({ u with
        name := if name = "" then u.name else name,
        email := if email = "" then u.email else email } : User).id)
      = true :=
    List.any_eq_true.mpr ⟨u, List.mem_of_find?_eq_some hfind, by simp⟩
  rw [show dbSave db now
      { u with
        name := if name = "" then u.name else name,
        email := if email = "" then u.email else email } =
      (Except.error duplicateKeyMsg : Except String (Db × User)) from by
    unfold dbSave
    rw [show (db.users.any fun v => v.id !=
        ({ u with
           name := if name = "" then u.name else name,
           email := if email = "" then u.email else email } : User).id &&
        v.email == ({ u with
           name := if name = "" then u.name else name,
           email := if email = "" then u.email else email } : User).email)
        = true from hconf]
    rw [hidany]
    simp]
  rw [liftDbOp_default_error]

/-- C6 counterexample: updating a nonexistent id fails with the
not-found domain error (its message carries "record not found", not
"duplicate key"), yet the gRPC adapter answers `Internal` and the HTTP
adapter answers 500 — not the claimed not-found codes.  The claimed
fixed table "NotFound maps to not-found" is therefore false for both
adapters. -/
theorem update_notFound_mapped_to_internal :
    service.UpdateUser emptyDb 0 1 "N" "n@x.com" =
      .error (wrapMsg "find_user_by_id" 3 (some recordNotFoundMsg)) ∧
    strContains (wrapMsg "find_user_by_id" 3 (some recordNotFoundMsg))
      "record not found" = true ∧
    strContains (wrapMsg "find_user_by_id" 3 (some recordNotFoundMsg))
      "duplicate key" = false ∧
    GrpcUserService.UpdateUser emptyDb 0
      { id := 1, name := "N", email := "n@x.com" } =
      (emptyDb, .error (.internal, "failed to update user")) ∧
    api.UpdateUser emptyDb 0 1 { name := "N", email := "n@x.com" } =
      (emptyDb, .failure 500 "Failed to update user") :=
  ⟨rfl, rfl, rfl, rfl, rfl⟩

/-- C6 (amended): the adapters map errors per operation, not by one
fixed table: `GetUser` answers not-found (gRPC `NotFound` / HTTP 404)
for every failure; `CreateUser`/signup and `UpdateUser` answer conflict
(`AlreadyExists` / 409) for a duplicate-key failure and a generic
internal failure (`Internal` / 500) for every other failure — including
the not-found failure of an update; and the HTTP login answers 401 for
an absent account. -/
theorem adapter_error_code_mapping :
    (∀ (db : Db) (id : Nat),
      db.users.find? (fun v => v.id == id) = none →
      GrpcUserService.GetUser db id =
        (db, .error (.notFound, "user not found")) ∧
      api.GetUser db id = (db, .failure 404 "User not found")) ∧
    (∀ (db : Db) (now id : Nat) (name email : String),
      db.users.find? (fun v => v.id == id) = none →
      GrpcUserService.UpdateUser db now
        { id := id, name := name, email := email } =
        (db, .error (.internal, "failed to update user")) ∧
      api.UpdateUser db now id { name := name, email := email } =
        (db, .failure 500 "Failed to update user")) ∧
    (∀ (db : Db) (now id : Nat) (name email : String) (u : User),
      db.users.find? (fun v => v.id == id) = some u →
      db.users.any (fun v => v.id != u.id &&
        v.email == (if email = "" then u.email else email)) = true →
      GrpcUserService.UpdateUser db now
        { id := id, name := name, email := email } =
        (db, .error (.alreadyExists, "email already exists")) ∧
      api.UpdateUser db now id { name := name, email := email } =
        (db, .failure 409 "Email already exists")) ∧
    (∀ (db : Db) (now : Nat) (r : CreateUserRequest),
      r.name ≠ "" → r.email ≠ "" → r.password ≠ "" →
      db.users.any (fun v => v.email == r.email) = true →
      GrpcUserService.CreateUser db now r =
        (db, .error (.alreadyExists, "email already exists"))) ∧
    (∀ (emailOk : String → Bool) (db : Db) (now : Nat)
        (s : SignupRequest),
      bindSignupOk emailOk s = true →
      db.users.any (fun v => v.email == s.email) = true →
      api.Signup emailOk db now s =
        (db, .failure 409 "Email already exists")) ∧
    (∀ (emailOk : String → Bool) (db : Db) (r : LoginRequest),
      bindLoginOk emailOk r = true →
      db.users.find? (fun v => v.email == r.email) = none →
      api.Login emailOk db r =
        (db, .failure 401 "Invalid credentials")) := by
  have hnotdup : strContains (wrapMsg "find_user_by_id" 3
      (some recordNotFoundMsg)) "duplicate key" = false := by decide
  have hdupyes : strContains (wrapMsg "create_user" 3
      (some duplicateKeyMsg)) "duplicate key" = true := by decide
  have hdupyes2 : strContains (wrapMsg "update_user" 3
      (some duplicateKeyMsg)) "duplicate key" = true := by decide
  refine ⟨?_, ?_, ?_, ?_, ?_, ?_⟩
  · intro db id h
    constructor
    · unfold GrpcUserService.GetUser
      rw [serviceGet_absent db id h]
    · unfold api.GetUser
      rw [serviceGet_absent db id h]
  · intro db now id name email h
    constructor
    · unfold GrpcUserService.UpdateUser
      dsimp only
      rw [serviceUpdate_absent db now id name email h]
      simp [hnotdup]
    · unfold api.UpdateUser
      rw [serviceUpdate_absent db now id name email h]
      simp [hnotdup]
  · intro db now id name email u hfind hconf
    have hsvc := serviceUpdate_conflict db now id name email u hfind hconf
    constructor
    · unfold GrpcUserService.UpdateUser
      dsimp only
      rw [hsvc]
      simp [hdupyes2]
    · unfold api.UpdateUser
      rw [hsvc]
      simp [hdupyes2]
  · intro db now r hn he hp hdup
    unfold GrpcUserService.CreateUser
    rw [show (r.name == "" || r.email == "" || r.password == "")
        = false from by simp [hn, he, hp]]
    rw [show service.CreateUser db now r.name r.email r.password =
      Except.error (wrapMsg "create_user" 3 (some duplicateKeyMsg)) from
      serviceCreate_dup db now r.name r.email r.password hdup]
    simp [hdupyes]
  · intro emailOk db now s hbind hdup
    unfold api.Signup
    rw [show service.CreateUser db now s.name s.email s.password =
      Except.error (wrapMsg "create_user" 3 (some duplicateKeyMsg)) from
      serviceCreate_dup db now s.name s.email s.password hdup]
    simp [hbind, hdupyes]
  · intro emailOk db r hbind habsent
    unfold api.Login
    rw [show service.GetUserByEmail db r.email =
        Except.error (wrapMsg "find_user_by_email" 3
          (some recordNotFoundMsg)) from by
      unfold service.GetUserByEmail
      rw [findUserByEmail_absent db r.email habsent]]
    simp [hbind]

/-- C6 amended-claim witness: the `GetUser` branch instantiated on the
empty store. -/
theorem adapter_error_code_mapping_witness :
    (emptyDb.users.find? (fun v => v.id == 1) = none) ∧
    GrpcUserService.GetUser emptyDb 1 =
      (emptyDb, .error (.notFound, "user not found")) ∧
    api.GetUser emptyDb 1 = (emptyDb, .failure 404 "User not found") :=
  ⟨rfl,
    (adapter_error_code_mapping.1 emptyDb 1 rfl).1,
    (adapter_error_code_mapping.1 emptyDb 1 rfl).2⟩

/- ---------------------------------------------------------------
   Adapter consistency (refinement between the two surfaces)
   --------------------------------------------------------------- -/

/-- Domain outcome of an adapter call, as the consistency invariant of
the spec describes it: the resulting store plus the caller-visible user
representation on success, or the rejection category. -/
inductive AdapterOutcome where
  | accepted (db : Db) (pu : ProtoUser)
  | conflict
  | internalFailure
  | rejectedInput
  | missing
deriving DecidableEq

/-- Classify an HTTP adapter reply into its domain outcome. -/
def httpOutcome : Db × HttpResp → AdapterOutcome
  | (db, .success _ (some u) _ _) => .accepted db (userToProtoUser u)
  | (_, .success _ none _ _) => .internalFailure
  | (_, .failure 400 _) => .rejectedInput
  | (_, .failure 404 _) => .missing
  | (_, .failure 409 _) => .conflict
  | (_, .failure _ _) => .internalFailure

/-- Classify a gRPC adapter reply into its domain outcome. -/
def grpcOutcome :
    Db × Except (GrpcCode × String) (ProtoUser × String) →
      AdapterOutcome
  | (db, .ok (pu, _)) => .accepted db pu
  | (_, .error (.invalidArgument, _)) => .rejectedInput
  | (_, .error (.notFound, _)) => .missing
  | (_, .error (.alreadyExists, _)) => .conflict
  | (_, .error (.internal, _)) => .internalFailure

/-- C8 counterexample: the same business input — name "Ann", email
"ann@x.com", password "abc" — is rejected by the HTTP surface (binding
requires at least 6 password characters; the store is untouched) but
accepted by the RPC surface, which creates the user.  The two adapters
do not yield identical domain outcomes for every input. -/
theorem create_password_validation_divergence :
    api.Signup (fun _ => true) emptyDb 0
      { name := "Ann", email := "ann@x.com", password := "abc" } =
      (emptyDb, .failure 400 bindErrMsg) ∧
    GrpcUserService.CreateUser emptyDb 0
      { name := "Ann", email := "ann@x.com", password := "abc" } =
      ({ users := [newUser emptyDb 0 "Ann" "ann@x.com" "abc"],
         nextId := 2 },
       .ok (userToProtoUser (newUser emptyDb 0 "Ann" "ann@x.com" "abc"),
         "User created successfully")) ∧
    ({ users := [newUser emptyDb 0 "Ann" "ann@x.com" "abc"],
       nextId := 2 } : Db) ≠ emptyDb :=
  ⟨rfl, rfl, by decide⟩

/-- C8 (amended): identical business inputs yield identical domain
outcomes through either adapter whenever the input passes both
surfaces' validation; for `UpdateUser` (no binding constraints) this
holds unconditionally, and for user creation it holds for every request
accepted by the HTTP binding — the divergence is confined to requests
the binding rejects (e.g. passwords shorter than 6 characters), which
the RPC surface accepts. -/
theorem adapters_domain_outcomes_agree :
    (∀ (db : Db) (now id : Nat) (r : RestUpdateUserRequest),
      httpOutcome (api.UpdateUser db now id r) =
      grpcOutcome (GrpcUserService.UpdateUser db now
        { id := id, name := r.name, email := r.email })) ∧
    (∀ (emailOk : String → Bool) (db : Db) (now : Nat)
        (s : SignupRequest),
      bindSignupOk emailOk s = true →
      httpOutcome (api.Signup emailOk db now s) =
      grpcOutcome (GrpcUserService.CreateUser db now
        { name := s.name, email := s.email, password := s.password })) := by
  constructor
  · intro db now id r
    unfold api.UpdateUser GrpcUserService.UpdateUser
    dsimp only
    cases hres : service.UpdateUser db now id r.name r.email with
    | error e =>
      cases hdup : strContains e "duplicate key" <;>
        simp [hdup, httpOutcome, grpcOutcome]
    | ok pr =>
      obtain ⟨db2, u⟩ := pr
      simp [httpOutcome, grpcOutcome]
  · intro emailOk db now s hbind
    have hparts := hbind
    rw [bindSignupOk] at hparts
    simp only [Bool.and_eq_true, Bool.not_eq_eq_eq_not, Bool.not_true,
      decide_eq_true_eq] at hparts
    obtain ⟨⟨⟨⟨hn, he⟩, _⟩, hp⟩, _⟩ := hparts
    unfold api.Signup GrpcUserService.CreateUser
    dsimp only
    rw [show (s.name == "" || s.email == "" || s.password == "")
        = false from by simp [hn, he, hp]]
    rw [show bindSignupOk emailOk s = true from hbind]
    cases hres : service.CreateUser db now s.name s.email s.password with
    | error e =>
      cases hdup : strContains e "duplicate key" <;>
        simp [hdup, httpOutcome, grpcOutcome]
    | ok pr =>
      obtain ⟨db2, u⟩ := pr
      simp [httpOutcome, grpcOutcome]

/-- C8 amended-claim witness: a signup request passing both surfaces'
validation yields the same accepted outcome through both adapters. -/
theorem adapters_domain_outcomes_agree_witness :
    bindSignupOk (fun _ => true)
      { name := "Ann", email := "ann@x.com", password := "secret1" }
      = true ∧
    httpOutcome (api.Signup (fun _ => true) emptyDb 0
      { name := "Ann", email := "ann@x.com", password := "secret1" }) =
    grpcOutcome (GrpcUserService.CreateUser emptyDb 0
      { name := "Ann", email := "ann@x.com", password := "secret1" }) :=
  ⟨rfl,
    adapters_domain_outcomes_agree.2 (fun _ => true) emptyDb 0
      { name := "Ann", email := "ann@x.com", password := "secret1" } rfl⟩
